import Mathlib

/-!
Shallow embedding of the QuickQuote offline processing pipeline:
the SQLite-backed work queue (src/database, src/services/queueService),
the sync orchestrator (src/services/syncService) and the Gemini
extraction client (src/services/geminiService).  External effects
(SQLite, fetch, timers) are modelled as explicit state passing; the
transcription and extraction clients are parameters of the processor.
-/

namespace QuickQuote

/-- Queue item status column (`'pending' | 'processing' | 'completed' | 'failed'`). -/
inductive QueueItemStatus where
  | pending
  | processing
  | completed
  | failed
deriving DecidableEq, Repr

/-- Queue item type column (`'stt' | 'parse' | 'both'`). -/
inductive QueueItemType where
  | stt
  | parse
  | both
deriving DecidableEq, Repr

/-- A row of the `queue` table, mapped to camelCase by `mapQueueRow`. -/
structure QueueItem where
  id : String
  draftId : String
  type : QueueItemType
  retryCount : Nat
  lastError : Option String
  createdAt : Nat
  status : QueueItemStatus
deriving DecidableEq, Repr

/-- A row of the `drafts` table, mapped to camelCase by `mapDraftRow`.
Confidence columns are SQLite REALs, modelled as rationals. -/
structure DraftRecord where
  id : String
  createdAt : Nat
  updatedAt : Nat
  audioPath : Option String
  audioDuration : Option Nat
  transcript : Option String
  transcriptConfidence : Option ℚ
  invoiceData : Option String
  parseConfidence : Option ℚ
  syncStatus : String
  sharedAt : Option Nat
  shareMethod : Option String
deriving DecidableEq, Repr

/-- The SQLite database contents relevant to the queue pipeline. -/
structure DbState where
  drafts : List DraftRecord
  queue : List QueueItem
deriving DecidableEq, Repr

/-- JavaScript truthiness of a nullable string: `null` and `''` are falsy. -/
def truthyStr : Option String → Bool
  | none => false
  | some s => s ≠ ""

/-- Ordering key used by `QUEUE_QUERIES.GET_PENDING` (`ORDER BY created_at ASC`). -/
def byCreatedAt (a b : QueueItem) : Prop := a.createdAt ≤ b.createdAt

instance : DecidableRel byCreatedAt := fun a b => Nat.decLe a.createdAt b.createdAt

instance : IsTotal QueueItem byCreatedAt := ⟨fun a b => Nat.le_total a.createdAt b.createdAt⟩

instance : IsTrans QueueItem byCreatedAt := ⟨fun _ _ _ h h' => Nat.le_trans h h'⟩

/-- `getPendingQueueItems` runs `QUEUE_QUERIES.GET_PENDING`:
`SELECT * FROM queue WHERE status = 'pending' ORDER BY created_at ASC`. -/
def getPendingQueueItems (db : DbState) : List QueueItem :=
  List.insertionSort byCreatedAt
    (db.queue.filter (fun q => q.status = QueueItemStatus.pending))

/-- `updateQueueItemStatus` runs `QUEUE_QUERIES.UPDATE_STATUS`:
`UPDATE queue SET status = ?, last_error = ?, retry_count = ? WHERE id = ?`. -/
def updateQueueItemStatus (db : DbState) (id : String) (status : QueueItemStatus)
    (error : Option String) (retryCount : Nat) : DbState :=
  { db with
    queue := db.queue.map (fun q =>
      if q.id = id then
        { q with status := status, lastError := error, retryCount := retryCount }
      else q) }

/-- `deleteCompletedQueueItems` runs `QUEUE_QUERIES.DELETE_COMPLETED`:
`DELETE FROM queue WHERE status = 'completed'`. -/
def deleteCompletedQueueItems (db : DbState) : DbState :=
  { db with queue := db.queue.filter (fun q => q.status ≠ QueueItemStatus.completed) }

/-- `getDraftById` runs `DRAFTS_QUERIES.GET_BY_ID` via `getFirstAsync`. -/
def getDraftById (db : DbState) (id : String) : Option DraftRecord :=
  db.drafts.find? (fun d => d.id = id)

/-- `updateDraftTranscript` runs `DRAFTS_QUERIES.UPDATE_TRANSCRIPT`:
sets `transcript`, `transcript_confidence`, `updated_at`. -/
def updateDraftTranscript (db : DbState) (id : String) (transcript : String)
    (confidence : ℚ) (now : Nat) : DbState :=
  { db with
    drafts := db.drafts.map (fun d =>
      if d.id = id then
        { d with transcript := some transcript,
                 transcriptConfidence := some confidence, updatedAt := now }
      else d) }

/-- `updateDraftInvoice` runs `DRAFTS_QUERIES.UPDATE_INVOICE`:
sets `invoice_data`, `parse_confidence`, `sync_status = 'synced'`, `updated_at`. -/
def updateDraftInvoice (db : DbState) (id : String) (invoiceData : String)
    (parseConfidence : ℚ) (now : Nat) : DbState :=
  { db with
    drafts := db.drafts.map (fun d =>
      if d.id = id then
        { d with invoiceData := some invoiceData,
                 parseConfidence := some parseConfidence,
                 syncStatus := "synced", updatedAt := now }
      else d) }

/-- Lookup of a queue row by primary key (convenience for statements). -/
def findItem (db : DbState) (id : String) : Option QueueItem :=
  db.queue.find? (fun q => q.id = id)

/-- The transcript of a draft, `none` when the draft or the field is null. -/
def draftTranscript (db : DbState) (id : String) : Option String :=
  (getDraftById db id).bind (fun d => d.transcript)

/-- The invoice JSON of a draft, `none` when the draft or the field is null. -/
def draftInvoiceData (db : DbState) (id : String) : Option String :=
  (getDraftById db id).bind (fun d => d.invoiceData)

/-- `MAX_RETRIES` in queueService: maximum retry attempts for failed jobs. -/
def MAX_RETRIES : Nat := 3

/-- The external clients the queue processor calls: `sttService.transcribe`
(audio path to transcript and confidence) and the extraction step
(`geminiService.parseTranscript` followed by `getAverageConfidence` and
`JSON.stringify`, which the processor persists as a JSON string plus a
confidence).  A thrown error is an `Except.error` carrying its message. -/
structure PipelineEnv where
  stt : String → Except String (String × ℚ)
  parse : String → Except String (String × ℚ)

/-- Result of `queueService.processItem`: the database afterwards, whether the
item completed (`ok = true`) or re-threw (`ok = false`, with the message),
and how many transcription / extraction client calls were made. -/
structure ItemResult where
  db : DbState
  ok : Bool
  error : Option String
  sttCalls : Nat
  parseCalls : Nat
deriving DecidableEq, Repr

/-- The error message thrown when the referenced draft does not exist. -/
def draftNotFoundMsg (draftId : String) : String :=
  "Draft " ++ draftId ++ " not found"

/-- The catch block of `processItem`: increment the retry count; at
`newRetryCount >= MAX_RETRIES` mark `failed`, otherwise mark `pending`;
record the error message and re-throw (`ok = false`). -/
def itemFailure (db : DbState) (item : QueueItem) (msg : String)
    (sttCalls parseCalls : Nat) : ItemResult :=
  if MAX_RETRIES ≤ item.retryCount + 1 then
    { db := updateQueueItemStatus db item.id QueueItemStatus.failed (some msg)
        (item.retryCount + 1),
      ok := false, error := some msg, sttCalls := sttCalls, parseCalls := parseCalls }
  else
    { db := updateQueueItemStatus db item.id QueueItemStatus.pending (some msg)
        (item.retryCount + 1),
      ok := false, error := some msg, sttCalls := sttCalls, parseCalls := parseCalls }

/-- The STT stage of `processItem`: when the item type includes `stt` and
`draft.audioPath && !draft.transcript`, call the transcription client and
checkpoint the transcript.  Returns the database and the number of
transcription calls, or the thrown message. -/
def sttStage (env : PipelineEnv) (db : DbState) (now : Nat) (item : QueueItem)
    (draft : DraftRecord) : Except String (DbState × Nat) :=
  if (item.type = QueueItemType.stt ∨ item.type = QueueItemType.both)
      ∧ truthyStr draft.audioPath = true ∧ truthyStr draft.transcript = false then
    match draft.audioPath with
    | some audioPath =>
      match env.stt audioPath with
      | Except.error e => Except.error e
      | Except.ok (transcript, confidence) =>
        Except.ok (updateDraftTranscript db item.draftId transcript confidence now, 1)
    | none => Except.ok (db, 0)
  else Except.ok (db, 0)

/-- The parse stage of `processItem`: when the item type includes `parse`,
re-read the draft and, when `updatedDraft?.transcript && !updatedDraft.invoiceData`,
call the extraction client and persist the invoice JSON with its confidence. -/
def parseStage (env : PipelineEnv) (db : DbState) (now : Nat) (item : QueueItem) :
    Except String (DbState × Nat) :=
  if item.type = QueueItemType.parse ∨ item.type = QueueItemType.both then
    match getDraftById db item.draftId with
    | some updatedDraft =>
      if truthyStr updatedDraft.transcript = true
          ∧ truthyStr updatedDraft.invoiceData = false then
        match updatedDraft.transcript with
        | some transcript =>
          match env.parse transcript with
          | Except.error e => Except.error e
          | Except.ok (invoiceJson, confidence) =>
            Except.ok (updateDraftInvoice db item.draftId invoiceJson confidence now, 1)
        | none => Except.ok (db, 0)
      else Except.ok (db, 0)
    | none => Except.ok (db, 0)
  else Except.ok (db, 0)

/-- `queueService.processItem`: mark `processing`, load the draft (missing
draft throws into the catch block), run the STT stage then the parse stage,
and on full success mark `completed`; any thrown error lands in the catch
block (`itemFailure`). -/
def processItem (env : PipelineEnv) (db : DbState) (now : Nat) (item : QueueItem) :
    ItemResult :=
  match getDraftById
      (updateQueueItemStatus db item.id QueueItemStatus.processing none item.retryCount)
      item.draftId with
  | none =>
    itemFailure
      (updateQueueItemStatus db item.id QueueItemStatus.processing none item.retryCount)
      item (draftNotFoundMsg item.draftId) 0 0
  | some draft =>
    match sttStage env
        (updateQueueItemStatus db item.id QueueItemStatus.processing none item.retryCount)
        now item draft with
    | Except.error msg =>
      itemFailure
        (updateQueueItemStatus db item.id QueueItemStatus.processing none item.retryCount)
        item msg 1 0
    | Except.ok (db2, sttCalls) =>
      match parseStage env db2 now item with
      | Except.error msg => itemFailure db2 item msg sttCalls 1
      | Except.ok (db3, parseCalls) =>
        { db := updateQueueItemStatus db3 item.id QueueItemStatus.completed none item.retryCount,
          ok := true, error := none, sttCalls := sttCalls, parseCalls := parseCalls }

/-- The summary returned by `queueService.processQueue`. -/
structure QueueProcessResult where
  processed : Nat
  failed : Nat
  total : Nat
  errors : List (String × String)
deriving DecidableEq, Repr

/-- A full processing pass together with its database and client-call counts. -/
structure PassResult where
  db : DbState
  result : QueueProcessResult
  sttCalls : Nat
  parseCalls : Nat
deriving DecidableEq, Repr

/-- `queueService.processQueue`: snapshot the pending items, process each
sequentially counting successes and failures, then (only when the snapshot
was non-empty, because of the early return) delete completed items. -/
def processQueue (env : PipelineEnv) (db : DbState) (now : Nat) : PassResult :=
  let pendingItems := getPendingQueueItems db
  let init : PassResult :=
    { db := db,
      result := { processed := 0, failed := 0, total := pendingItems.length, errors := [] },
      sttCalls := 0, parseCalls := 0 }
  if pendingItems.isEmpty then init
  else
    let afterLoop := pendingItems.foldl (fun acc item =>
      let r := processItem env acc.db now item
      if r.ok then
        { db := r.db,
          result := { acc.result with processed := acc.result.processed + 1 },
          sttCalls := acc.sttCalls + r.sttCalls,
          parseCalls := acc.parseCalls + r.parseCalls }
      else
        { db := r.db,
          result := { acc.result with
            failed := acc.result.failed + 1,
            errors := acc.result.errors ++ [(item.id, r.error.getD "Unknown error")] },
          sttCalls := acc.sttCalls + r.sttCalls,
          parseCalls := acc.parseCalls + r.parseCalls }) init
    { afterLoop with db := deleteCompletedQueueItems afterLoop.db }

/-- `queueService.retryFailedItems`: fetch the pending items, keep those with
`item.status === 'failed' || (item.lastError && item.retryCount < MAX_RETRIES)`,
and set each back to `pending` with a null error, keeping its retry count. -/
def retryFailedItems (db : DbState) : DbState :=
  let pendingItems := getPendingQueueItems db
  let failedItems := pendingItems.filter (fun item =>
    item.status = QueueItemStatus.failed
      ∨ (truthyStr item.lastError = true ∧ item.retryCount < MAX_RETRIES))
  failedItems.foldl (fun d item =>
    updateQueueItemStatus d item.id QueueItemStatus.pending none item.retryCount) db

/-- The summary returned by `queueService.getQueueStatus`, computed from
`getPendingQueueItems`. -/
structure QueueStatus where
  pending : Nat
  processing : Nat
  failed : Nat
  total : Nat
deriving DecidableEq, Repr

/-- `queueService.getQueueStatus`: per-status counts over `getPendingQueueItems`. -/
def getQueueStatus (db : DbState) : QueueStatus :=
  let items := getPendingQueueItems db
  { pending := (items.filter (fun i => i.status = QueueItemStatus.pending)).length,
    processing := (items.filter (fun i => i.status = QueueItemStatus.processing)).length,
    failed := (items.filter (fun i => i.status = QueueItemStatus.failed)).length,
    total := items.length }

/-! ### Sync orchestrator (src/services/syncService.ts) -/

/-- `SyncState` in syncService. -/
inductive SyncState where
  | idle
  | syncing
  | completed
  | error
deriving DecidableEq, Repr

/-- The module-level mutable state of syncService relevant to `syncNow`
(`syncState`, `lastSyncAt`, `lastError`).  Listener fan-out has no effect
on this state and is omitted. -/
structure SyncSt where
  syncState : SyncState
  lastSyncAt : Option Nat
  lastError : Option String
deriving DecidableEq, Repr

/-- `SYNC_DEBOUNCE_MS` in syncService. -/
def SYNC_DEBOUNCE_MS : Nat := 2000

/-- `MIN_SYNC_INTERVAL_MS` in syncService. -/
def MIN_SYNC_INTERVAL_MS : Nat := 30000

/-- `updateState` in syncService: set the state, record the error when one is
passed, and stamp `lastSyncAt` with the current time on `completed` or `error`. -/
def updateState (st : SyncSt) (newState : SyncState) (error : Option String)
    (now : Nat) : SyncSt :=
  let st1 := { st with syncState := newState }
  let st2 := match error with
    | some e => { st1 with lastError := some e }
    | none => st1
  if newState = SyncState.completed ∨ newState = SyncState.error then
    { st2 with lastSyncAt := some now }
  else st2

/-- External world of `syncNow`: the pipeline clients plus the network state
returned by `Network.getNetworkStateAsync`. -/
structure SyncEnv where
  pipeline : PipelineEnv
  isConnected : Bool
  isInternetReachable : Option Bool

/-- The offline test in `syncNow`:
`!networkState.isConnected || networkState.isInternetReachable === false`. -/
def syncOffline (env : SyncEnv) : Bool :=
  env.isConnected = false ∨ env.isInternetReachable = some false

/-- JavaScript truthiness of the nullable `lastSyncAt` number: null and 0 are falsy. -/
def truthyNat : Option Nat → Bool
  | none => false
  | some n => n ≠ 0

/-- The `SyncResult` returned by `syncNow`. -/
structure SyncResult where
  success : Bool
  processResult : Option QueueProcessResult
  error : Option String
deriving DecidableEq, Repr

/-- The error message `updateState` receives when a pass had failures. -/
def syncFailMsg (failed : Nat) : String :=
  toString failed ++ " items failed to sync"

/-- Outcome of one `syncNow` call: its return value, the sync state and
database afterwards, and how many times `queueService.processQueue` was invoked. -/
structure SyncOutcome where
  result : SyncResult
  st : SyncSt
  db : DbState
  processCalls : Nat
deriving DecidableEq, Repr

/-- `syncService.syncNow` run without interleaving: the already-syncing check,
the minimum-interval check (`lastSyncAt && Date.now() - lastSyncAt < MIN_SYNC_INTERVAL_MS`),
the offline check, then `updateState('syncing')`, one `processQueue` pass and the
final `completed`/`error` transition. -/
def syncNow (env : SyncEnv) (st : SyncSt) (db : DbState) (now : Nat) : SyncOutcome :=
  if st.syncState = SyncState.syncing then
    { result := { success := false, processResult := none,
                  error := some "Sync already in progress" },
      st := st, db := db, processCalls := 0 }
  else if truthyNat st.lastSyncAt = true ∧ now - st.lastSyncAt.getD 0 < MIN_SYNC_INTERVAL_MS then
    { result := { success := true, processResult := none, error := none },
      st := st, db := db, processCalls := 0 }
  else if syncOffline env = true then
    { result := { success := false, processResult := none, error := some "Device is offline" },
      st := st, db := db, processCalls := 0 }
  else
    let st1 := updateState st SyncState.syncing none now
    let pass := processQueue env.pipeline db now
    let st2 :=
      if 0 < pass.result.failed then
        updateState st1 SyncState.error (some (syncFailMsg pass.result.failed)) now
      else
        updateState st1 SyncState.completed none now
    { result := { success := pass.result.failed = 0, processResult := some pass.result,
                  error := none },
      st := st2, db := pass.db, processCalls := 1 }

/-- Program counter of one `syncNow` task, cut at its suspension points:
`entry` is before the synchronous checks, `netChecked` is the resumption
after `await Network.getNetworkStateAsync()`, `processed` is the resumption
after `await queueService.processQueue()`. -/
inductive SyncPC where
  | entry
  | netChecked
  | processed
  | done (r : SyncResult)
deriving DecidableEq, Repr

/-- State shared by all `syncNow` tasks under the cooperative scheduler:
the module-level sync state, the database, and how many times
`processQueue` has been invoked. -/
structure SyncShared where
  st : SyncSt
  db : DbState
  processCalls : Nat
deriving DecidableEq, Repr

/-- One synchronous segment of `syncNow` under cooperative scheduling.
From `entry`: the already-syncing and minimum-interval checks run atomically,
then the task suspends on the network probe.  From `netChecked`: the offline
check and `updateState('syncing')` run atomically and `processQueue` is
invoked (counted here), then the task suspends awaiting it.  From
`processed`: the pass results are applied and the final state transition runs. -/
def stepSync (env : SyncEnv) (sh : SyncShared) (pc : SyncPC) (now : Nat) :
    SyncShared × SyncPC :=
  match pc with
  | SyncPC.entry =>
    if sh.st.syncState = SyncState.syncing then
      (sh, SyncPC.done { success := false, processResult := none,
                         error := some "Sync already in progress" })
    else if truthyNat sh.st.lastSyncAt = true
        ∧ now - sh.st.lastSyncAt.getD 0 < MIN_SYNC_INTERVAL_MS then
      (sh, SyncPC.done { success := true, processResult := none, error := none })
    else
      (sh, SyncPC.netChecked)
  | SyncPC.netChecked =>
    if syncOffline env = true then
      (sh, SyncPC.done { success := false, processResult := none,
                         error := some "Device is offline" })
    else
      ({ sh with st := updateState sh.st SyncState.syncing none now,
                 processCalls := sh.processCalls + 1 },
       SyncPC.processed)
  | SyncPC.processed =>
    let pass := processQueue env.pipeline sh.db now
    let st2 :=
      if 0 < pass.result.failed then
        updateState sh.st SyncState.error (some (syncFailMsg pass.result.failed)) now
      else
        updateState sh.st SyncState.completed none now
    ({ sh with st := st2, db := pass.db },
     SyncPC.done { success := pass.result.failed = 0, processResult := some pass.result,
                   error := none })
  | SyncPC.done r => (sh, SyncPC.done r)

/-- Two `syncNow` tasks interleaved over the shared state. -/
structure TwoTasks where
  sh : SyncShared
  a : SyncPC
  b : SyncPC
deriving DecidableEq, Repr

/-- Run a cooperative schedule over two `syncNow` tasks: `true` steps task
`a`, `false` steps task `b`. -/
def runSchedule (env : SyncEnv) (now : Nat) : TwoTasks → List Bool → TwoTasks
  | s, [] => s
  | s, true :: rest =>
    let (sh1, pc1) := stepSync env s.sh s.a now
    runSchedule env now { sh := sh1, a := pc1, b := s.b } rest
  | s, false :: rest =>
    let (sh1, pc1) := stepSync env s.sh s.b now
    runSchedule env now { sh := sh1, a := s.a, b := pc1 } rest

/-! ### Gemini extraction client (src/services/geminiService.ts) -/

/-- `CONFIG.MAX_RETRIES` in src/config/env.ts: number of API retries. -/
def CONFIG_MAX_RETRIES : Nat := 3

/-- One raw line item as parsed from the Gemini JSON (`RawParsedInvoice.items`).
Numeric JSON fields are modelled as rationals; a missing string is `""`. -/
structure RawItem where
  description : String
  quantity : ℚ
  unitPrice : ℚ
  amount : ℚ
  confidence : ℚ
deriving DecidableEq, Repr

/-- `RawParsedInvoice`: the shape `JSON.parse` yields from the model text. -/
structure RawParsedInvoice where
  items : List RawItem
  subtotal : ℚ
  taxPercent : ℚ
  taxAmount : ℚ
  discountPercent : ℚ
  discountAmount : ℚ
  total : ℚ
  currency : String
  notes : Option String
deriving DecidableEq, Repr

/-- A transformed `InvoiceItem` (src/types/invoice.ts). -/
structure InvoiceItem where
  id : String
  description : String
  quantity : ℚ
  unitPrice : ℚ
  amount : ℚ
  confidence : ℚ
deriving DecidableEq, Repr

/-- A `ParsedInvoice` (src/types/invoice.ts); `createdAt` keeps the clock value. -/
structure ParsedInvoice where
  id : String
  items : List InvoiceItem
  subtotal : ℚ
  taxPercent : ℚ
  taxAmount : ℚ
  discountPercent : ℚ
  discountAmount : ℚ
  total : ℚ
  currency : String
  notes : String
  originalTranscript : String
  createdAt : Nat
  status : String
deriving DecidableEq, Repr

/-- JavaScript `x || d` on a number: `0` is falsy. -/
def jsOrNum (x d : ℚ) : ℚ := if x = 0 then d else x

/-- JavaScript `Math.max(a, b)`: the larger argument. -/
def jsMax (a b : ℚ) : ℚ := if a ≤ b then b else a

/-- JavaScript `Math.min(a, b)`: the smaller argument. -/
def jsMin (a b : ℚ) : ℚ := if a ≤ b then a else b

/-- JavaScript `s || d` on a string: `''` is falsy. -/
def jsOrStr (s d : String) : String := if s = "" then d else s

/-- JavaScript `s || d` on a nullable string. -/
def jsOrOptStr (s : Option String) (d : String) : String :=
  match s with
  | some v => jsOrStr v d
  | none => d

/-- `Math.round(q * 100) / 100`, the two-decimal rounding used on every
monetary total (JavaScript `Math.round` is floor of the argument plus one half). -/
def round2 (q : ℚ) : ℚ := (⌊q * 100 + 1 / 2⌋ : ℚ) / 100

/-- `items.reduce((sum, item) => sum + item.amount, 0)`. -/
def itemsAmountSum (items : List InvoiceItem) : ℚ :=
  items.foldl (fun sum item => sum + item.amount) 0

/-- `geminiService.transformToInvoice`: map each raw item through the
defaulting and clamping rules, then recalculate `subtotal`, `taxAmount`,
`discountAmount` and `total` from the clamped item amounts, ignoring the
provider-supplied `subtotal` and `total`, and round every recomputed
monetary total to two decimals. -/
def transformToInvoice (raw : RawParsedInvoice) (originalTranscript : String)
    (now : Nat) : ParsedInvoice :=
  let items : List InvoiceItem := raw.items.enum.map (fun p =>
    { id := "item_" ++ toString now ++ "_" ++ toString p.1,
      description := jsOrStr p.2.description "Unknown item",
      quantity := jsMax 0 (jsOrNum p.2.quantity 1),
      unitPrice := jsMax 0 (jsOrNum p.2.unitPrice 0),
      amount := jsMax 0 (jsOrNum p.2.amount (p.2.quantity * p.2.unitPrice)),
      confidence := jsMin 1 (jsMax 0 (jsOrNum p.2.confidence (1 / 2))) })
  let subtotal := itemsAmountSum items
  let taxPercent := jsOrNum raw.taxPercent 0
  let taxAmount := subtotal * (taxPercent / 100)
  let discountPercent := jsOrNum raw.discountPercent 0
  let discountAmount := subtotal * (discountPercent / 100)
  let total := subtotal + taxAmount - discountAmount
  { id := "inv_" ++ toString now,
    items := items,
    subtotal := round2 subtotal,
    taxPercent := taxPercent,
    taxAmount := round2 taxAmount,
    discountPercent := discountPercent,
    discountAmount := round2 discountAmount,
    total := round2 total,
    currency := jsOrStr raw.currency "INR",
    notes := jsOrOptStr raw.notes "",
    originalTranscript := originalTranscript,
    createdAt := now,
    status := "draft" }

/-- A `GeminiError`: its type tag, message and retryability flag. -/
structure GemErr where
  type : String
  message : String
  retryable : Bool
deriving DecidableEq, Repr

/-- External world of `parseTranscript`: the outcome of each main-loop
attempt (the fetch, HTTP status handling, text extraction and JSON parse of
attempt `i`, abstracted as either a thrown `GeminiError` or the decoded
`RawParsedInvoice`), and the fallback request's HTTP success flag, response
text and JSON parse outcome (`none` when `JSON.parse` throws). -/
structure GeminiEnv where
  attempt : Nat → Except GemErr RawParsedInvoice
  fallbackHttpOk : Bool
  fallbackText : Option String
  fallbackJson : Option RawParsedInvoice

/-- The empty invoice `fallbackParse` returns as a last resort, built from the
default options (`currency 'INR'`, `taxRate 0`). -/
def emptyFallbackInvoice (transcript : String) (now : Nat) : ParsedInvoice :=
  { id := "inv_" ++ toString now,
    items := [],
    subtotal := 0,
    taxPercent := 0,
    taxAmount := 0,
    discountPercent := 0,
    discountAmount := 0,
    total := 0,
    currency := "INR",
    notes := "Failed to parse transcript. Please add items manually.",
    originalTranscript := transcript,
    createdAt := now,
    status := "draft" }

/-- `geminiService.fallbackParse`: a non-ok HTTP response throws a
non-retryable `API_ERROR`; a falsy response text throws `EMPTY_RESPONSE`;
a JSON parse failure is caught and yields the empty last-resort invoice;
otherwise the parsed JSON is transformed. -/
def fallbackParse (env : GeminiEnv) (transcript : String) (now : Nat) :
    Except GemErr ParsedInvoice :=
  if env.fallbackHttpOk = false then
    Except.error { type := "API_ERROR", message := "Fallback parser failed", retryable := false }
  else if truthyStr env.fallbackText = false then
    Except.error { type := "EMPTY_RESPONSE", message := "No fallback response", retryable := false }
  else
    match env.fallbackJson with
    | some raw => Except.ok (transformToInvoice raw transcript now)
    | none => Except.ok (emptyFallbackInvoice transcript now)

/-- The retry loop of `parseTranscript` over the remaining attempts, carrying
the index of the next attempt and the last error.  When the loop is
exhausted, `fallbackParse` is tried exactly once (counted in the second
component); its failure re-throws the last main-loop error.  A
non-retryable attempt error is re-thrown immediately without fallback. -/
def parseAttempts (env : GeminiEnv) (transcript : String) (now : Nat) :
    Nat → Nat → Option GemErr → Except GemErr ParsedInvoice × Nat
  | 0, _, lastErr =>
    (match fallbackParse env transcript now with
     | Except.ok invoice => Except.ok invoice
     | Except.error _ =>
       Except.error (lastErr.getD
         { type := "API_ERROR", message := "Max retries exceeded", retryable := false }),
     1)
  | Nat.succ remaining, i, _ =>
    match env.attempt i with
    | Except.ok raw => (Except.ok (transformToInvoice raw transcript now), 0)
    | Except.error e =>
      if e.retryable = false then (Except.error e, 0)
      else parseAttempts env transcript now remaining (i + 1) (some e)

/-- The guard `!transcript || transcript.trim().length === 0`: the transcript
is empty or consists of whitespace only. -/
def isBlank (s : String) : Bool := s.data.all Char.isWhitespace

/-- `geminiService.parseTranscript`: an empty or blank transcript throws a
non-retryable `EMPTY_RESPONSE`; otherwise the main loop runs
`CONFIG_MAX_RETRIES` attempts and then falls back.  The second component
counts the `fallbackParse` calls made. -/
def parseTranscript (env : GeminiEnv) (transcript : String) (now : Nat) :
    Except GemErr ParsedInvoice × Nat :=
  if isBlank transcript = true then
    (Except.error { type := "EMPTY_RESPONSE", message := "No transcript to parse",
                    retryable := false }, 0)
  else parseAttempts env transcript now CONFIG_MAX_RETRIES 0 none

/-! ### Concrete fixtures used by the theorems below -/

/-- Pipeline clients that always throw a retryable network-style error. -/
def envNoop : PipelineEnv :=
  { stt := fun _ => Except.error "Network request failed",
    parse := fun _ => Except.error "Network request failed" }

/-- Pipeline clients that always succeed. -/
def envHappy : PipelineEnv :=
  { stt := fun _ => Except.ok ("2 hours at 500", 9 / 10),
    parse := fun _ => Except.ok ("\x7b\x7d", 4 / 5) }

/-- Transcription succeeds, extraction always throws a retryable network error. -/
def envParseFail : PipelineEnv :=
  { stt := fun _ => Except.ok ("2 hours at 500", 9 / 10),
    parse := fun _ => Except.error "Network request failed" }

/-- A queue row stuck in `failed`. -/
def itemFailedC1 : QueueItem :=
  { id := "q1", draftId := "d1", type := QueueItemType.stt, retryCount := 3,
    lastError := some "network error", createdAt := 5, status := QueueItemStatus.failed }

/-- A queue row stuck in `processing`. -/
def itemProcessingC1 : QueueItem :=
  { id := "q2", draftId := "d1", type := QueueItemType.stt, retryCount := 0,
    lastError := none, createdAt := 6, status := QueueItemStatus.processing }

/-- A queue holding one `failed` row and one `processing` row. -/
def dbC1 : DbState := { drafts := [], queue := [itemFailedC1, itemProcessingC1] }

/-- A fresh `both` item whose referenced draft does not exist. -/
def itemC2 : QueueItem :=
  { id := "q1", draftId := "d1", type := QueueItemType.both, retryCount := 0,
    lastError := none, createdAt := 0, status := QueueItemStatus.pending }

/-- A database with the orphan item of `itemC2` and no drafts at all. -/
def dbC2 : DbState := { drafts := [], queue := [itemC2] }

/-- An orphan `both` item already at retry count 2. -/
def itemC2w : QueueItem :=
  { id := "q9", draftId := "d9", type := QueueItemType.both, retryCount := 2,
    lastError := some "Draft d9 not found", createdAt := 0, status := QueueItemStatus.pending }

/-- A database with the orphan item of `itemC2w` and no drafts at all. -/
def dbC2w : DbState := { drafts := [], queue := [itemC2w] }

/-- A draft with neither audio nor transcript nor invoice. -/
def draftC3 : DraftRecord :=
  { id := "d1", createdAt := 0, updatedAt := 0, audioPath := none, audioDuration := none,
    transcript := none, transcriptConfidence := none, invoiceData := none,
    parseConfidence := none, syncStatus := "queued", sharedAt := none, shareMethod := none }

/-- A `parse` item for the transcript-less draft `draftC3`. -/
def itemC3 : QueueItem :=
  { id := "q1", draftId := "d1", type := QueueItemType.parse, retryCount := 0,
    lastError := none, createdAt := 0, status := QueueItemStatus.pending }

/-- Database with `draftC3` and the pending `parse` item `itemC3`. -/
def dbC3 : DbState := { drafts := [draftC3], queue := [itemC3] }

/-- A draft holding a transcript but no invoice yet, used for the C3 witness. -/
def draftC3w : DraftRecord :=
  { id := "d1", createdAt := 0, updatedAt := 0, audioPath := some "a.m4a",
    audioDuration := some 1000, transcript := some "2 hours at 500",
    transcriptConfidence := some (9 / 10), invoiceData := none,
    parseConfidence := none, syncStatus := "queued", sharedAt := none, shareMethod := none }

/-- A pending `parse` item for `draftC3w`. -/
def itemC3w : QueueItem :=
  { id := "q1", draftId := "d1", type := QueueItemType.parse, retryCount := 0,
    lastError := none, createdAt := 0, status := QueueItemStatus.pending }

/-- Database with `draftC3w` and the pending item `itemC3w`. -/
def dbC3w : DbState := { drafts := [draftC3w], queue := [itemC3w] }

/-- A `both` item that has exhausted its retries. -/
def itemC5 : QueueItem :=
  { id := "q1", draftId := "d1", type := QueueItemType.both, retryCount := 3,
    lastError := some "network error", createdAt := 0, status := QueueItemStatus.failed }

/-- A queue holding only the failed item `itemC5`. -/
def dbC5 : DbState := { drafts := [], queue := [itemC5] }

/-- The draft of the C6 scenario: audio recorded, nothing transcribed yet. -/
def draftC6 : DraftRecord :=
  { id := "d1", createdAt := 0, updatedAt := 0, audioPath := some "a.m4a",
    audioDuration := some 1000, transcript := none, transcriptConfidence := none,
    invoiceData := none, parseConfidence := none, syncStatus := "queued",
    sharedAt := none, shareMethod := none }

/-- The queued `both` item of the C6 scenario. -/
def itemC6 : QueueItem :=
  { id := "q1", draftId := "d1", type := QueueItemType.both, retryCount := 0,
    lastError := none, createdAt := 0, status := QueueItemStatus.pending }

/-- Database of the C6 scenario before the first pass. -/
def dbC6 : DbState := { drafts := [draftC6], queue := [itemC6] }

/-- Database of the C6 scenario after three `processQueue` passes under
`envParseFail`. -/
def dbC6after : DbState :=
  (processQueue envParseFail
    (processQueue envParseFail (processQueue envParseFail dbC6 1).db 2).db 3).db

/-- A draft whose transcript is the empty string (non-null but falsy). -/
def draftC7 : DraftRecord :=
  { id := "d1", createdAt := 0, updatedAt := 0, audioPath := none, audioDuration := none,
    transcript := some "", transcriptConfidence := some (9 / 10), invoiceData := none,
    parseConfidence := none, syncStatus := "queued", sharedAt := none, shareMethod := none }

/-- A pending `both` item for `draftC7`. -/
def itemC7 : QueueItem :=
  { id := "q1", draftId := "d1", type := QueueItemType.both, retryCount := 0,
    lastError := none, createdAt := 0, status := QueueItemStatus.pending }

/-- Database with `draftC7` and the pending item `itemC7`. -/
def dbC7 : DbState := { drafts := [draftC7], queue := [itemC7] }

/-- A draft with a non-empty transcript and no invoice, for the C7 witness. -/
def draftC7w : DraftRecord :=
  { id := "d1", createdAt := 0, updatedAt := 0, audioPath := some "a.m4a",
    audioDuration := some 1000, transcript := some "2 hours at 500",
    transcriptConfidence := some (9 / 10), invoiceData := none,
    parseConfidence := none, syncStatus := "queued", sharedAt := none, shareMethod := none }

/-- A pending `both` item for `draftC7w`. -/
def itemC7w : QueueItem :=
  { id := "q1", draftId := "d1", type := QueueItemType.both, retryCount := 0,
    lastError := none, createdAt := 0, status := QueueItemStatus.pending }

/-- Database with `draftC7w` and the pending item `itemC7w`. -/
def dbC7w : DbState := { drafts := [draftC7w], queue := [itemC7w] }

/-- An online network environment over the always-failing pipeline. -/
def envSyncOnline : SyncEnv :=
  { pipeline := envNoop, isConnected := true, isInternetReachable := some true }

/-- An empty database. -/
def dbEmpty : DbState := { drafts := [], queue := [] }

/-- The initial shared sync state: `idle`, never synced, no tasks run yet. -/
def sharedIdle : SyncShared :=
  { st := { syncState := SyncState.idle, lastSyncAt := none, lastError := none },
    db := dbEmpty, processCalls := 0 }

/-- Gemini environment whose every main attempt throws a retryable network
error and whose fallback request fails at the HTTP layer. -/
def gemEnvFail : GeminiEnv :=
  { attempt := fun _ =>
      Except.error { type := "NETWORK_ERROR", message := "Network request failed",
                     retryable := true },
    fallbackHttpOk := false, fallbackText := none, fallbackJson := none }

/-- Gemini environment whose every main attempt throws a retryable network
error and whose fallback responds with text that is not parseable JSON. -/
def gemEnvSoft : GeminiEnv :=
  { attempt := fun _ =>
      Except.error { type := "NETWORK_ERROR", message := "Network request failed",
                     retryable := true },
    fallbackHttpOk := true, fallbackText := some "not json", fallbackJson := none }

/-- A raw extraction output with a negative unit price, a zero quantity and
wrong provider totals, exercising the clamping and recomputation rules. -/
def rawC10 : RawParsedInvoice :=
  { items := [{ description := "chair", quantity := 2, unitPrice := 500,
                amount := 1000, confidence := 1 },
              { description := "", quantity := 0, unitPrice := -3,
                amount := -7, confidence := 2 }],
    subtotal := 55, taxPercent := 10, taxAmount := 99, discountPercent := 0,
    discountAmount := 42, total := 1234567, currency := "", notes := none }

/-- The clamped transformation of the second raw item of `rawC10`: quantity
defaulted to 1, negative unit price and amount clamped to zero. -/
def itemC10w : InvoiceItem :=
  { id := "item_0_1", description := "Unknown item", quantity := 1,
    unitPrice := 0, amount := 0, confidence := 1 }

/-! ### Helper lemmas -/

/-- A truthy nullable string is not null. -/
theorem truthyStr_ne_none {o : Option String} (h : truthyStr o = true) : o ≠ none := by
  cases o with
  | none => simp [truthyStr] at h
  | some s => simp

/-- Updating the same queue row twice keeps only the second update. -/
theorem map_update_map_update (l : List QueueItem) (id : String)
    (s1 s2 : QueueItemStatus) (e1 e2 : Option String) (r1 r2 : Nat) :
    (l.map (fun q =>
        if q.id = id then { q with status := s1, lastError := e1, retryCount := r1 } else q)).map
      (fun q =>
        if q.id = id then { q with status := s2, lastError := e2, retryCount := r2 } else q)
      = l.map (fun q =>
        if q.id = id then { q with status := s2, lastError := e2, retryCount := r2 } else q) := by
  rw [List.map_map]
  apply List.map_congr_left
  intro q _
  by_cases h : q.id = id <;> simp [h, Function.comp]

/-- Queue-row updates do not touch the drafts table. -/
theorem drafts_updateQueueItemStatus (db : DbState) (id : String)
    (s : QueueItemStatus) (e : Option String) (r : Nat) :
    (updateQueueItemStatus db id s e r).drafts = db.drafts := rfl

/-- Draft transcript updates do not touch the queue table. -/
theorem queue_updateDraftTranscript (db : DbState) (id t : String) (c : ℚ) (now : Nat) :
    (updateDraftTranscript db id t c now).queue = db.queue := rfl

/-- Draft invoice updates do not touch the queue table. -/
theorem queue_updateDraftInvoice (db : DbState) (id j : String) (c : ℚ) (now : Nat) :
    (updateDraftInvoice db id j c now).queue = db.queue := rfl

/-- A successful STT stage leaves the queue table unchanged. -/
theorem sttStage_queue (env : PipelineEnv) (db : DbState) (now : Nat)
    (item : QueueItem) (draft : DraftRecord) (db2 : DbState) (n : Nat)
    (h : sttStage env db now item draft = Except.ok (db2, n)) : db2.queue = db.queue := by
  unfold sttStage at h
  repeat' split at h
  all_goals
    first
    | (simp only [Except.ok.injEq, Prod.mk.injEq] at h
       obtain ⟨h1, h2⟩ := h
       subst h1
       rfl)
    | simp at h

/-- A successful parse stage leaves the queue table unchanged. -/
theorem parseStage_queue (env : PipelineEnv) (db : DbState) (now : Nat)
    (item : QueueItem) (db2 : DbState) (n : Nat)
    (h : parseStage env db now item = Except.ok (db2, n)) : db2.queue = db.queue := by
  unfold parseStage at h
  repeat' split at h
  all_goals
    first
    | (simp only [Except.ok.injEq, Prod.mk.injEq] at h
       obtain ⟨h1, h2⟩ := h
       subst h1
       rfl)
    | simp at h

/-- `find?` by id over an id-preserving conditional map rewrites the found row. -/
theorem find?_map_updateDraft (l : List DraftRecord) (id : String)
    (f : DraftRecord → DraftRecord) (hf : ∀ d, (f d).id = d.id) (d : DraftRecord)
    (h : l.find? (fun x => x.id = id) = some d) :
    (l.map (fun x => if x.id = id then f x else x)).find? (fun x => x.id = id)
      = some (f d) := by
  induction l with
  | nil => simp at h
  | cons a t ih =>
    by_cases ha : a.id = id
    · rw [List.find?_cons_of_pos _ (by simp [ha])] at h
      cases h
      simp only [List.map_cons, if_pos ha]
      rw [List.find?_cons_of_pos _ (by simp [hf, ha])]
    · rw [List.find?_cons_of_neg _ (by simp [ha])] at h
      simp only [List.map_cons, if_neg ha]
      rw [List.find?_cons_of_neg _ (by simp [ha])]
      exact ih h

/-- Reading the draft after `updateDraftInvoice` sees the persisted invoice. -/
theorem getDraftById_updateDraftInvoice (db : DbState) (id j : String) (c : ℚ)
    (now : Nat) (d : DraftRecord) (h : getDraftById db id = some d) :
    getDraftById (updateDraftInvoice db id j c now) id
      = some { d with invoiceData := some j, parseConfidence := some c,
                      syncStatus := "synced", updatedAt := now } := by
  unfold getDraftById updateDraftInvoice
  exact find?_map_updateDraft db.drafts id
    (fun x => { x with invoiceData := some j, parseConfidence := some c,
                       syncStatus := "synced", updatedAt := now })
    (fun _ => rfl) d h

/-- Queue-row updates do not change a draft lookup. -/
theorem getDraftById_updateQueueItemStatus (db : DbState) (qid : String)
    (s : QueueItemStatus) (e : Option String) (r : Nat) (id : String) :
    getDraftById (updateQueueItemStatus db qid s e r) id = getDraftById db id := rfl

/-! ### Claim theorems -/

/-- C1: the spec claims `listPending` returns every item whose status is not
`completed`.  The query `GET_PENDING` filters `status = 'pending'`, so a
`failed` and a `processing` row — both non-completed — are omitted, and the
`getQueueStatus` counters derived from the same query can never see them. -/
theorem c1_getPendingQueueItems_omits_failed_and_processing :
    getPendingQueueItems dbC1 = []
    ∧ itemFailedC1 ∈ dbC1.queue ∧ itemFailedC1.status ≠ QueueItemStatus.completed
    ∧ itemProcessingC1 ∈ dbC1.queue ∧ itemProcessingC1.status ≠ QueueItemStatus.completed
    ∧ (getQueueStatus dbC1).failed = 0 ∧ (getQueueStatus dbC1).processing = 0
    ∧ (getQueueStatus dbC1).total = 0 := by
  decide

/-- C4: starting from the idle never-synced state with the network online,
the cooperative schedule A-entry, B-entry, A-net, B-net drives two
interleaved `syncNow` calls past the `'syncing'` check before either one
has written `'syncing'` (the write happens only after the awaited network
probe), so both invoke `processQueue`; a call arriving while the state is
already `'syncing'` does return failure without touching anything. -/
theorem c4_interleaved_syncNow_double_processQueue :
    (runSchedule envSyncOnline 0
        { sh := sharedIdle, a := SyncPC.entry, b := SyncPC.entry }
        [true, false, true, false]).sh.processCalls = 2
    ∧ (runSchedule envSyncOnline 0
        { sh := sharedIdle, a := SyncPC.entry, b := SyncPC.entry }
        [true, false, true, false]).a = SyncPC.processed
    ∧ (runSchedule envSyncOnline 0
        { sh := sharedIdle, a := SyncPC.entry, b := SyncPC.entry }
        [true, false, true, false]).b = SyncPC.processed
    ∧ syncNow envSyncOnline
        { syncState := SyncState.syncing, lastSyncAt := none, lastError := none } dbEmpty 0
      = { result := { success := false, processResult := none,
                      error := some "Sync already in progress" },
          st := { syncState := SyncState.syncing, lastSyncAt := none, lastError := none },
          db := dbEmpty, processCalls := 0 } := by
  refine ⟨by decide, by decide, by decide, rfl⟩

/-- C5: the spec claims `retryFailedItems` resets every `failed` item back to
`pending`.  It filters the result of `getPendingQueueItems`, whose query
only returns `status = 'pending'` rows, so a `failed` row is never seen and
the whole call leaves the database unchanged — contradicting both the claim
and the function's own `status === 'failed'` filter arm, which is dead code. -/
theorem c5_retryFailedItems_leaves_failed_items_failed :
    retryFailedItems dbC5 = dbC5
    ∧ itemC5.status = QueueItemStatus.failed
    ∧ findItem (retryFailedItems dbC5) "q1"
        = some { itemC5 with status := QueueItemStatus.failed } := by
  decide

/-- C2: counterexample — the spec claims a missing draft is fatal (marked
`failed`, never retried), but a fresh orphan item is put back to `pending`
with retry count 1. -/
theorem c2_missing_draft_counterexample :
    getDraftById dbC2 "d1" = none
    ∧ findItem (processItem envNoop dbC2 0 itemC2).db "q1"
        = some { id := "q1", draftId := "d1", type := QueueItemType.both, retryCount := 1,
                 lastError := some "Draft d1 not found", createdAt := 0,
                 status := QueueItemStatus.pending } := by
  decide

/-- C2 (amended): a missing draft is handled by the generic retry policy —
the item re-throws, its retry count is incremented by one, the error is
recorded, and it is marked `failed` only when the new retry count reaches
`MAX_RETRIES`, otherwise `pending` for a further attempt. -/
theorem c2_missing_draft_generic_retry (env : PipelineEnv) (db : DbState)
    (item : QueueItem) (now : Nat) (h : getDraftById db item.draftId = none) :
    (processItem env db now item).ok = false
    ∧ (processItem env db now item).error = some (draftNotFoundMsg item.draftId)
    ∧ (processItem env db now item).db.queue
        = db.queue.map (fun q =>
            if q.id = item.id then
              { q with
                status :=
                  if MAX_RETRIES ≤ item.retryCount + 1 then QueueItemStatus.failed
                  else QueueItemStatus.pending,
                lastError := some (draftNotFoundMsg item.draftId),
                retryCount := item.retryCount + 1 }
            else q) := by
  have hred : processItem env db now item
      = itemFailure (updateQueueItemStatus db item.id QueueItemStatus.processing none
          item.retryCount) item (draftNotFoundMsg item.draftId) 0 0 := by
    unfold processItem
    rw [getDraftById_updateQueueItemStatus, h]
  rw [hred]
  unfold itemFailure
  by_cases h3 : MAX_RETRIES ≤ item.retryCount + 1
  · simp only [if_pos h3]
    exact ⟨by trivial, by trivial, map_update_map_update db.queue item.id _ _ _ _ _ _⟩
  · simp only [if_neg h3]
    exact ⟨by trivial, by trivial, map_update_map_update db.queue item.id _ _ _ _ _ _⟩

/-- C2 witness: an orphan item already at retry count 2 reaches the ceiling
and is marked `failed` by the amended rule. -/
theorem c2_missing_draft_generic_retry_witness :
    (processItem envNoop dbC2w 0 itemC2w).ok = false
    ∧ (processItem envNoop dbC2w 0 itemC2w).error = some (draftNotFoundMsg "d9")
    ∧ (processItem envNoop dbC2w 0 itemC2w).db.queue
        = dbC2w.queue.map (fun q =>
            if q.id = itemC2w.id then
              { q with
                status :=
                  if MAX_RETRIES ≤ itemC2w.retryCount + 1 then QueueItemStatus.failed
                  else QueueItemStatus.pending,
                lastError := some (draftNotFoundMsg itemC2w.draftId),
                retryCount := itemC2w.retryCount + 1 }
            else q) := by
  have h := c2_missing_draft_generic_retry envNoop dbC2w itemC2w 0 rfl
  exact ⟨h.1, h.2.1, h.2.2⟩

/-- C3: counterexample — a `parse` item whose draft has no transcript is
marked `completed` without any invoice being checkpointed, and a subsequent
`processQueue` pass over a queue with no pending work leaves that completed
item in place with the draft's `invoiceData` still null. -/
theorem c3_completed_without_invoice_counterexample :
    itemC3.type = QueueItemType.parse
    ∧ (processItem envNoop dbC3 0 itemC3).ok = true
    ∧ (findItem (processQueue envNoop (processItem envNoop dbC3 0 itemC3).db 1).db "q1").map
        (fun q => q.status) = some QueueItemStatus.completed
    ∧ draftInvoiceData (processQueue envNoop (processItem envNoop dbC3 0 itemC3).db 1).db "d1"
        = none := by
  decide

/-- C3 (amended): when `processItem` completes an item of type `parse` or
`both` and the draft afterwards holds a non-empty transcript, the draft's
`invoiceData` is non-null; completion guarantees a checkpointed invoice only
under that transcript condition. -/
theorem c3_completed_parse_has_invoice (env : PipelineEnv) (db : DbState)
    (item : QueueItem) (now : Nat)
    (htype : item.type = QueueItemType.parse ∨ item.type = QueueItemType.both)
    (hok : (processItem env db now item).ok = true)
    (ht : truthyStr (draftTranscript (processItem env db now item).db item.draftId) = true) :
    draftInvoiceData (processItem env db now item).db item.draftId ≠ none := by
  cases hd : getDraftById (updateQueueItemStatus db item.id QueueItemStatus.processing none
      item.retryCount) item.draftId with
  | none =>
    have hr : processItem env db now item
        = itemFailure (updateQueueItemStatus db item.id QueueItemStatus.processing none
            item.retryCount) item (draftNotFoundMsg item.draftId) 0 0 := by
      unfold processItem
      rw [hd]
    rw [hr] at hok
    unfold itemFailure at hok
    by_cases h3 : MAX_RETRIES ≤ item.retryCount + 1
    · simp only [if_pos h3] at hok
      cases hok
    · simp only [if_neg h3] at hok
      cases hok
  | some draft =>
    cases hstt : sttStage env (updateQueueItemStatus db item.id QueueItemStatus.processing none
        item.retryCount) now item draft with
    | error msg =>
      have hr : processItem env db now item
          = itemFailure (updateQueueItemStatus db item.id QueueItemStatus.processing none
              item.retryCount) item msg 1 0 := by
        unfold processItem
        rw [hd]
        dsimp only
        rw [hstt]
      rw [hr] at hok
      unfold itemFailure at hok
      by_cases h3 : MAX_RETRIES ≤ item.retryCount + 1
      · simp only [if_pos h3] at hok
        cases hok
      · simp only [if_neg h3] at hok
        cases hok
    | ok pSTT =>
      obtain ⟨db2, nS⟩ := pSTT
      cases hp : parseStage env db2 now item with
      | error msg =>
        have hr : processItem env db now item
            = itemFailure db2 item msg nS 1 := by
          unfold processItem
          rw [hd]
          dsimp only
          rw [hstt]
          dsimp only
          rw [hp]
        rw [hr] at hok
        unfold itemFailure at hok
        by_cases h3 : MAX_RETRIES ≤ item.retryCount + 1
        · simp only [if_pos h3] at hok
          cases hok
        · simp only [if_neg h3] at hok
          cases hok
      | ok pParse =>
        obtain ⟨db3, nP⟩ := pParse
        have hr : processItem env db now item
            = { db := updateQueueItemStatus db3 item.id QueueItemStatus.completed none
                  item.retryCount,
                ok := true, error := none, sttCalls := nS, parseCalls := nP } := by
          unfold processItem
          rw [hd]
          dsimp only
          rw [hstt]
          dsimp only
          rw [hp]
        rw [hr] at ht ⊢
        have ht3 : truthyStr (draftTranscript db3 item.draftId) = true := ht
        show draftInvoiceData db3 item.draftId ≠ none
        unfold parseStage at hp
        rw [if_pos htype] at hp
        cases hupd : getDraftById db2 item.draftId with
        | none =>
          rw [hupd] at hp
          simp only [Except.ok.injEq, Prod.mk.injEq] at hp
          obtain ⟨h1, h2⟩ := hp
          subst h1
          have : draftTranscript db2 item.draftId = none := by
            unfold draftTranscript
            rw [hupd]
            rfl
          rw [this] at ht3
          simp [truthyStr] at ht3
        | some upd =>
          rw [hupd] at hp
          dsimp only at hp
          by_cases hcond : truthyStr upd.transcript = true
              ∧ truthyStr upd.invoiceData = false
          · rw [if_pos hcond] at hp
            cases htr : upd.transcript with
            | none =>
              rw [htr] at hcond
              simp [truthyStr] at hcond
            | some t =>
              rw [htr] at hp
              dsimp only at hp
              cases hpar : env.parse t with
              | error e =>
                rw [hpar] at hp
                cases hp
              | ok jc =>
                obtain ⟨j, c⟩ := jc
                rw [hpar] at hp
                simp only [Except.ok.injEq, Prod.mk.injEq] at hp
                obtain ⟨h1, h2⟩ := hp
                subst h1
                have hfound := getDraftById_updateDraftInvoice db2 item.draftId j c now upd hupd
                unfold draftInvoiceData
                rw [hfound]
                simp
          · rw [if_neg hcond] at hp
            simp only [Except.ok.injEq, Prod.mk.injEq] at hp
            obtain ⟨h1, h2⟩ := hp
            subst h1
            have htup : truthyStr upd.transcript = true := by
              have : draftTranscript db2 item.draftId = upd.transcript := by
                unfold draftTranscript
                rw [hupd]
                rfl
              rw [← this]
              exact ht3
            have hiup : truthyStr upd.invoiceData = true := by
              by_contra hfalse
              exact hcond ⟨htup, by simpa using hfalse⟩
            have : draftInvoiceData db2 item.draftId = upd.invoiceData := by
              unfold draftInvoiceData
              rw [hupd]
              rfl
            rw [this]
            exact truthyStr_ne_none hiup

/-- C3 witness: the amended rule applied to a draft that already has a
non-empty transcript and no invoice, with an extraction client that succeeds. -/
theorem c3_completed_parse_has_invoice_witness :
    draftInvoiceData (processItem envHappy dbC3w 7 itemC3w).db "d1" ≠ none := by
  exact c3_completed_parse_has_invoice envHappy dbC3w itemC3w 7 (Or.inl rfl)
    (by decide) (by decide)

/-- The error component of `itemFailure` fixes the recorded message. -/
theorem itemFailure_error (dbm : DbState) (item : QueueItem) (m msg : String)
    (s p : Nat) (h : (itemFailure dbm item m s p).error = some msg) : m = msg := by
  unfold itemFailure at h
  split at h <;> simpa using h

/-- `itemFailure` always re-throws. -/
theorem itemFailure_ok (dbm : DbState) (item : QueueItem) (m : String) (s p : Nat) :
    (itemFailure dbm item m s p).ok = false := by
  unfold itemFailure
  split <;> rfl

/-- The queue after `itemFailure`: retry count incremented, error recorded,
status `failed` at the ceiling and `pending` below it. -/
theorem itemFailure_queue (dbm : DbState) (item : QueueItem) (m : String) (s p : Nat) :
    (itemFailure dbm item m s p).db.queue
      = dbm.queue.map (fun q =>
          if q.id = item.id then
            { q with
              status :=
                if MAX_RETRIES ≤ item.retryCount + 1 then QueueItemStatus.failed
                else QueueItemStatus.pending,
              lastError := some m, retryCount := item.retryCount + 1 }
          else q) := by
  unfold itemFailure
  by_cases h3 : MAX_RETRIES ≤ item.retryCount + 1
  · simp only [if_pos h3]
    rfl
  · simp only [if_neg h3]
    rfl

/-- When `processItem` re-throws with a message, the item's retry count is
incremented by exactly one, the message is recorded, and the status becomes
`failed` exactly when the new retry count reaches `MAX_RETRIES`, else
`pending`.  Covers stage errors and the missing-draft error alike. -/
theorem processItem_error_spec (env : PipelineEnv) (db : DbState) (item : QueueItem)
    (now : Nat) (msg : String) (herr : (processItem env db now item).error = some msg) :
    (processItem env db now item).ok = false
    ∧ (processItem env db now item).db.queue
        = db.queue.map (fun q =>
            if q.id = item.id then
              { q with
                status :=
                  if MAX_RETRIES ≤ item.retryCount + 1 then QueueItemStatus.failed
                  else QueueItemStatus.pending,
                lastError := some msg, retryCount := item.retryCount + 1 }
            else q) := by
  cases hd : getDraftById (updateQueueItemStatus db item.id QueueItemStatus.processing none
      item.retryCount) item.draftId with
  | none =>
    have hr : processItem env db now item
        = itemFailure (updateQueueItemStatus db item.id QueueItemStatus.processing none
            item.retryCount) item (draftNotFoundMsg item.draftId) 0 0 := by
      unfold processItem
      rw [hd]
    rw [hr] at herr ⊢
    obtain rfl := itemFailure_error _ _ _ _ _ _ herr
    refine ⟨itemFailure_ok _ _ _ _ _, ?_⟩
    rw [itemFailure_queue]
    exact map_update_map_update db.queue item.id _ _ _ _ _ _
  | some draft =>
    cases hstt : sttStage env (updateQueueItemStatus db item.id QueueItemStatus.processing none
        item.retryCount) now item draft with
    | error m =>
      have hr : processItem env db now item
          = itemFailure (updateQueueItemStatus db item.id QueueItemStatus.processing none
              item.retryCount) item m 1 0 := by
        unfold processItem
        rw [hd]
        dsimp only
        rw [hstt]
      rw [hr] at herr ⊢
      obtain rfl := itemFailure_error _ _ _ _ _ _ herr
      refine ⟨itemFailure_ok _ _ _ _ _, ?_⟩
      rw [itemFailure_queue]
      exact map_update_map_update db.queue item.id _ _ _ _ _ _
    | ok pSTT =>
      obtain ⟨db2, nS⟩ := pSTT
      cases hp : parseStage env db2 now item with
      | error m =>
        have hr : processItem env db now item = itemFailure db2 item m nS 1 := by
          unfold processItem
          rw [hd]
          dsimp only
          rw [hstt]
          dsimp only
          rw [hp]
        rw [hr] at herr ⊢
        obtain rfl := itemFailure_error _ _ _ _ _ _ herr
        refine ⟨itemFailure_ok _ _ _ _ _, ?_⟩
        rw [itemFailure_queue]
        rw [sttStage_queue env _ now item draft db2 nS hstt]
        exact map_update_map_update db.queue item.id _ _ _ _ _ _
      | ok pParse =>
        obtain ⟨db3, nP⟩ := pParse
        have hr : processItem env db now item
            = { db := updateQueueItemStatus db3 item.id QueueItemStatus.completed none
                  item.retryCount,
                ok := true, error := none, sttCalls := nS, parseCalls := nP } := by
          unfold processItem
          rw [hd]
          dsimp only
          rw [hstt]
          dsimp only
          rw [hp]
        rw [hr] at herr
        simp at herr

/-- C6: a re-thrown pipeline error increments `retryCount` by exactly one,
records the message, and yields `failed` exactly at the ceiling of
`MAX_RETRIES = 3`, else `pending`; concretely, with an extraction client
that always throws a retryable network error, after three `processQueue`
passes the item is `failed` with `retryCount = 3` while the draft's
transcript checkpoint is preserved and its `invoiceData` is still null. -/
theorem c6_retry_policy :
    (∀ (env : PipelineEnv) (db : DbState) (item : QueueItem) (now : Nat) (msg : String),
      (processItem env db now item).error = some msg →
      (processItem env db now item).ok = false
      ∧ (processItem env db now item).db.queue
          = db.queue.map (fun q =>
              if q.id = item.id then
                { q with
                  status :=
                    if MAX_RETRIES ≤ item.retryCount + 1 then QueueItemStatus.failed
                    else QueueItemStatus.pending,
                  lastError := some msg, retryCount := item.retryCount + 1 }
              else q))
    ∧ ((findItem dbC6after "q1").map (fun q => q.status) = some QueueItemStatus.failed
       ∧ (findItem dbC6after "q1").map (fun q => q.retryCount) = some 3
       ∧ draftTranscript dbC6after "d1" = some "2 hours at 500"
       ∧ draftInvoiceData dbC6after "d1" = none) :=
  ⟨fun env db item now msg herr => processItem_error_spec env db item now msg herr,
   by decide⟩

/-- C6 witness: the retry rule applied to the first scenario pass, where the
extraction client throws and the item moves from retry count 0 to 1. -/
theorem c6_retry_policy_witness :
    (processItem envParseFail dbC6 1 itemC6).ok = false
    ∧ (processItem envParseFail dbC6 1 itemC6).db.queue
        = dbC6.queue.map (fun q =>
            if q.id = itemC6.id then
              { q with
                status :=
                  if MAX_RETRIES ≤ itemC6.retryCount + 1 then QueueItemStatus.failed
                  else QueueItemStatus.pending,
                lastError := some "Network request failed",
                retryCount := itemC6.retryCount + 1 }
            else q) :=
  c6_retry_policy.1 envParseFail dbC6 itemC6 1 "Network request failed" (by decide)

/-- C7: counterexample — the claim quantifies over drafts with a non-null
transcript, but a draft whose transcript is the empty string (non-null, yet
falsy in the code's truthiness checks) gets zero extraction calls instead
of exactly one. -/
theorem c7_empty_transcript_counterexample :
    draftC7.transcript ≠ none
    ∧ draftC7.invoiceData = none
    ∧ itemC7.type = QueueItemType.both
    ∧ (processItem envHappy dbC7 0 itemC7).parseCalls = 0
    ∧ (processItem envHappy dbC7 0 itemC7).sttCalls = 0 := by
  decide

/-- C7 (amended): for a `both` item whose draft has a non-empty transcript
and a null invoice, and whose extraction call succeeds, `processItem` makes
zero transcription calls and exactly one extraction call, and persists the
invoice JSON together with its confidence. -/
theorem c7_stage_skip (env : PipelineEnv) (db : DbState) (item : QueueItem)
    (now : Nat) (d : DraftRecord) (t j : String) (c : ℚ)
    (htype : item.type = QueueItemType.both)
    (hfound : getDraftById db item.draftId = some d)
    (ht : d.transcript = some t) (hne : t ≠ "")
    (hinv : truthyStr d.invoiceData = false)
    (hparse : env.parse t = Except.ok (j, c)) :
    (processItem env db now item).sttCalls = 0
    ∧ (processItem env db now item).parseCalls = 1
    ∧ (processItem env db now item).ok = true
    ∧ draftInvoiceData (processItem env db now item).db item.draftId = some j
    ∧ (getDraftById (processItem env db now item).db item.draftId).map
        (fun d2 => d2.parseConfidence) = some (some c) := by
  have htr : truthyStr d.transcript = true := by
    rw [ht]
    simp [truthyStr, hne]
  have hd1 : getDraftById (updateQueueItemStatus db item.id QueueItemStatus.processing none
      item.retryCount) item.draftId = some d := hfound
  have hsttSkip : sttStage env (updateQueueItemStatus db item.id QueueItemStatus.processing none
      item.retryCount) now item d
      = Except.ok (updateQueueItemStatus db item.id QueueItemStatus.processing none
          item.retryCount, 0) := by
    unfold sttStage
    rw [if_neg (by simp [htr])]
  have hpar : parseStage env (updateQueueItemStatus db item.id QueueItemStatus.processing none
      item.retryCount) now item
      = Except.ok (updateDraftInvoice (updateQueueItemStatus db item.id
          QueueItemStatus.processing none item.retryCount) item.draftId j c now, 1) := by
    unfold parseStage
    rw [if_pos (Or.inr htype), hd1]
    dsimp only
    rw [if_pos ⟨htr, hinv⟩, ht]
    dsimp only
    rw [hparse]
  have hr : processItem env db now item
      = { db := updateQueueItemStatus (updateDraftInvoice (updateQueueItemStatus db item.id
            QueueItemStatus.processing none item.retryCount) item.draftId j c now) item.id
            QueueItemStatus.completed none item.retryCount,
          ok := true, error := none, sttCalls := 0, parseCalls := 1 } := by
    unfold processItem
    rw [hd1]
    dsimp only
    rw [hsttSkip]
    dsimp only
    rw [hpar]
  rw [hr]
  refine ⟨rfl, rfl, rfl, ?_, ?_⟩
  · show draftInvoiceData (updateDraftInvoice (updateQueueItemStatus db item.id
        QueueItemStatus.processing none item.retryCount) item.draftId j c now) item.draftId
      = some j
    unfold draftInvoiceData
    rw [getDraftById_updateDraftInvoice _ item.draftId j c now d hd1]
    rfl
  · show (getDraftById (updateDraftInvoice (updateQueueItemStatus db item.id
        QueueItemStatus.processing none item.retryCount) item.draftId j c now)
        item.draftId).map (fun d2 => d2.parseConfidence) = some (some c)
    rw [getDraftById_updateDraftInvoice _ item.draftId j c now d hd1]
    rfl

/-- C7 witness: the amended rule on a draft with transcript checkpoint set
and no invoice, under clients that succeed. -/
theorem c7_stage_skip_witness :
    (processItem envHappy dbC7w 0 itemC7w).sttCalls = 0
    ∧ (processItem envHappy dbC7w 0 itemC7w).parseCalls = 1
    ∧ (processItem envHappy dbC7w 0 itemC7w).ok = true
    ∧ draftInvoiceData (processItem envHappy dbC7w 0 itemC7w).db "d1" = some "\x7b\x7d"
    ∧ (getDraftById (processItem envHappy dbC7w 0 itemC7w).db "d1").map
        (fun d2 => d2.parseConfidence) = some (some (4 / 5)) :=
  c7_stage_skip envHappy dbC7w itemC7w 0 draftC7w "2 hours at 500" "\x7b\x7d" (4 / 5)
    rfl rfl rfl (by decide) rfl rfl

/-- A single `syncNow` call invokes `processQueue` at most once. -/
theorem syncNow_processCalls_le_one (env : SyncEnv) (st : SyncSt) (db : DbState)
    (now : Nat) : (syncNow env st db now).processCalls ≤ 1 := by
  unfold syncNow
  repeat' split
  all_goals first | exact Nat.zero_le 1 | exact Nat.le_refl 1

/-- A `syncNow` call that reaches the processing branch makes exactly one
`processQueue` invocation and ends in a non-`syncing` state stamped with the
call time. -/
theorem syncNow_full_pass (env : SyncEnv) (st : SyncSt) (db : DbState) (now : Nat)
    (h1 : ¬ st.syncState = SyncState.syncing)
    (h2 : ¬ (truthyNat st.lastSyncAt = true
        ∧ now - st.lastSyncAt.getD 0 < MIN_SYNC_INTERVAL_MS))
    (h3 : ¬ syncOffline env = true) :
    (syncNow env st db now).processCalls = 1
    ∧ (syncNow env st db now).st.syncState ≠ SyncState.syncing
    ∧ (syncNow env st db now).st.lastSyncAt = some now := by
  unfold syncNow
  rw [if_neg h1, if_neg h2, if_neg h3]
  refine ⟨rfl, ?_, ?_⟩
  · by_cases hf : 0 < (processQueue env.pipeline db now).result.failed
    · simp [updateState, hf]
    · simp [updateState, hf]
  · by_cases hf : 0 < (processQueue env.pipeline db now).result.failed
    · simp [updateState, hf]
    · simp [updateState, hf]

/-- C8: when no sync is in flight and less than `MIN_SYNC_INTERVAL_MS` have
elapsed since the last completed or errored sync, `syncNow` returns
`success: true` with no process result, touching neither the state nor the
database and invoking `processQueue` zero times; consequently two sequential
`syncNow` calls within the window make at most one `processQueue` invocation. -/
theorem c8_min_interval_rate_limit :
    (∀ (env : SyncEnv) (st : SyncSt) (db : DbState) (now t : Nat),
      st.syncState ≠ SyncState.syncing → st.lastSyncAt = some t → t ≠ 0 →
      now - t < MIN_SYNC_INTERVAL_MS →
      syncNow env st db now
        = { result := { success := true, processResult := none, error := none },
            st := st, db := db, processCalls := 0 })
    ∧ (∀ (env : SyncEnv) (st : SyncSt) (db : DbState) (now1 now2 : Nat),
      now1 ≠ 0 → now2 - now1 < MIN_SYNC_INTERVAL_MS →
      (syncNow env st db now1).processCalls
        + (syncNow env (syncNow env st db now1).st (syncNow env st db now1).db
            now2).processCalls
        ≤ 1) := by
  constructor
  · intro env st db now t hstate hlast ht0 hlt
    have hcond : truthyNat st.lastSyncAt = true
        ∧ now - st.lastSyncAt.getD 0 < MIN_SYNC_INTERVAL_MS := by
      rw [hlast]
      exact ⟨by simp [truthyNat, ht0], by simpa using hlt⟩
    unfold syncNow
    rw [if_neg hstate, if_pos hcond]
  · intro env st db now1 now2 h0 hlt
    by_cases h1 : st.syncState = SyncState.syncing
    · have hr1 : syncNow env st db now1
          = { result := { success := false, processResult := none,
                          error := some "Sync already in progress" },
              st := st, db := db, processCalls := 0 } := by
        unfold syncNow
        rw [if_pos h1]
      rw [hr1]
      dsimp only
      have hle := syncNow_processCalls_le_one env st db now2
      omega
    · by_cases h2 : truthyNat st.lastSyncAt = true
          ∧ now1 - st.lastSyncAt.getD 0 < MIN_SYNC_INTERVAL_MS
      · have hr1 : syncNow env st db now1
            = { result := { success := true, processResult := none, error := none },
                st := st, db := db, processCalls := 0 } := by
          unfold syncNow
          rw [if_neg h1, if_pos h2]
        rw [hr1]
        dsimp only
        have hle := syncNow_processCalls_le_one env st db now2
        omega
      · by_cases h3 : syncOffline env = true
        · have hr1 : syncNow env st db now1
              = { result := { success := false, processResult := none,
                              error := some "Device is offline" },
                  st := st, db := db, processCalls := 0 } := by
            unfold syncNow
            rw [if_neg h1, if_neg h2, if_pos h3]
          rw [hr1]
          dsimp only
          have hle := syncNow_processCalls_le_one env st db now2
          omega
        · obtain ⟨hc1, hc2, hc3⟩ := syncNow_full_pass env st db now1 h1 h2 h3
          have hr2 : (syncNow env (syncNow env st db now1).st
              (syncNow env st db now1).db now2).processCalls = 0 := by
            generalize hgen : syncNow env st db now1 = o1 at hc2 hc3 ⊢
            unfold syncNow
            rw [if_neg hc2, hc3]
            rw [if_pos ⟨by simp [truthyNat, h0], by simpa using hlt⟩]
          omega

/-- C8 witness: the rate limiter at a concrete state four milliseconds after
a completed sync. -/
theorem c8_min_interval_rate_limit_witness :
    syncNow envSyncOnline
        { syncState := SyncState.idle, lastSyncAt := some 4, lastError := none } dbEmpty 5
      = { result := { success := true, processResult := none, error := none },
          st := { syncState := SyncState.idle, lastSyncAt := some 4, lastError := none },
          db := dbEmpty, processCalls := 0 } :=
  c8_min_interval_rate_limit.1 envSyncOnline
    { syncState := SyncState.idle, lastSyncAt := some 4, lastError := none } dbEmpty 5 4
    (by decide) rfl (by decide) (by decide)

/-- C9: counterexample — with every main attempt failing retryably and the
fallback request failing at the HTTP layer, `parseTranscript` makes its one
fallback attempt but then re-raises the last main-loop error instead of
returning the best-effort empty invoice the claim promises. -/
theorem c9_fallback_raise_counterexample :
    (parseTranscript gemEnvFail "two chairs" 0).2 = 1
    ∧ (parseTranscript gemEnvFail "two chairs" 0).1
        = Except.error { type := "NETWORK_ERROR", message := "Network request failed",
                         retryable := true } :=
  ⟨by decide, rfl⟩

/-- C9 (amended): once the main retry loop is exhausted by retryable errors,
exactly one fallback attempt is made; when the fallback HTTP request
succeeds with a response text that is not parseable JSON, the best-effort
empty invoice is returned instead of raising; but when the fallback request
itself fails, the last main-loop error is raised to the caller. -/
theorem c9_fallback_policy (env : GeminiEnv) (transcript : String) (now : Nat)
    (hblank : isBlank transcript = false)
    (hfail : ∀ i, i < CONFIG_MAX_RETRIES →
      ∃ e, env.attempt i = Except.error e ∧ e.retryable = true) :
    (parseTranscript env transcript now).2 = 1
    ∧ (env.fallbackHttpOk = true → truthyStr env.fallbackText = true →
        env.fallbackJson = none →
        (parseTranscript env transcript now).1
          = Except.ok (emptyFallbackInvoice transcript now))
    ∧ (env.fallbackHttpOk = false →
        ∃ e, (parseTranscript env transcript now).1 = Except.error e) := by
  obtain ⟨e0, h0, hr0⟩ := hfail 0 (by decide)
  obtain ⟨e1, h1, hr1⟩ := hfail 1 (by decide)
  obtain ⟨e2, h2, hr2⟩ := hfail 2 (by decide)
  have hred : parseTranscript env transcript now
      = ((match fallbackParse env transcript now with
          | Except.ok invoice => Except.ok invoice
          | Except.error _ => Except.error e2), 1) := by
    unfold parseTranscript
    rw [if_neg (by simp [hblank])]
    show parseAttempts env transcript now 3 0 none = _
    unfold parseAttempts
    rw [h0]
    dsimp only
    rw [if_neg (by simp [hr0])]
    show parseAttempts env transcript now 2 1 (some e0) = _
    unfold parseAttempts
    rw [h1]
    dsimp only
    rw [if_neg (by simp [hr1])]
    show parseAttempts env transcript now 1 2 (some e1) = _
    unfold parseAttempts
    rw [h2]
    dsimp only
    rw [if_neg (by simp [hr2])]
    show parseAttempts env transcript now 0 3 (some e2) = _
    unfold parseAttempts
    rfl
  refine ⟨by rw [hred], ?_, ?_⟩
  · intro hok htext hjson
    rw [hred]
    have hfb : fallbackParse env transcript now
        = Except.ok (emptyFallbackInvoice transcript now) := by
      unfold fallbackParse
      rw [if_neg (by simp [hok]), if_neg (by simp [htext]), hjson]
    rw [hfb]
  · intro hbad
    rw [hred]
    have hfb : fallbackParse env transcript now
        = Except.error { type := "API_ERROR", message := "Fallback parser failed",
                         retryable := false } := by
      unfold fallbackParse
      rw [if_pos hbad]
    rw [hfb]
    exact ⟨e2, rfl⟩

/-- C9 witness: the amended rule at a fallback that answers un-parseable
text, yielding the annotated empty invoice and exactly one fallback call. -/
theorem c9_fallback_policy_witness :
    (parseTranscript gemEnvSoft "two chairs" 0).2 = 1
    ∧ (parseTranscript gemEnvSoft "two chairs" 0).1
        = Except.ok (emptyFallbackInvoice "two chairs" 0) := by
  have h := c9_fallback_policy gemEnvSoft "two chairs" 0 (by decide)
    (fun i _ => ⟨{ type := "NETWORK_ERROR", message := "Network request failed",
                   retryable := true }, rfl, rfl⟩)
  exact ⟨h.1, h.2.1 rfl (by decide) rfl⟩

/-- Clamping through `Math.max(0, _)` is non-negative. -/
theorem zero_le_jsMax (x : ℚ) : 0 ≤ jsMax 0 x := by
  unfold jsMax
  split
  · assumption
  · exact le_refl 0

/-- C10: every extracted invoice satisfies the recomputed arithmetic — item
quantity, unit price and amount clamped non-negative; `subtotal` is the
rounded sum of the item amounts; `taxAmount` and `discountAmount` are the
rounded percentages of that sum; `total` is the rounded
subtotal-plus-tax-minus-discount; and the provider-supplied `subtotal` and
`total` fields have no influence on the output. -/
theorem c10_recomputed_totals (raw : RawParsedInvoice) (transcript : String) (now : Nat) :
    (∀ it, it ∈ (transformToInvoice raw transcript now).items →
      0 ≤ it.quantity ∧ 0 ≤ it.unitPrice ∧ 0 ≤ it.amount)
    ∧ (transformToInvoice raw transcript now).subtotal
        = round2 (itemsAmountSum (transformToInvoice raw transcript now).items)
    ∧ (transformToInvoice raw transcript now).taxAmount
        = round2 (itemsAmountSum (transformToInvoice raw transcript now).items
            * (transformToInvoice raw transcript now).taxPercent / 100)
    ∧ (transformToInvoice raw transcript now).discountAmount
        = round2 (itemsAmountSum (transformToInvoice raw transcript now).items
            * (transformToInvoice raw transcript now).discountPercent / 100)
    ∧ (transformToInvoice raw transcript now).total
        = round2 (itemsAmountSum (transformToInvoice raw transcript now).items
            + itemsAmountSum (transformToInvoice raw transcript now).items
              * (transformToInvoice raw transcript now).taxPercent / 100
            - itemsAmountSum (transformToInvoice raw transcript now).items
              * (transformToInvoice raw transcript now).discountPercent / 100)
    ∧ (∀ s t, transformToInvoice { raw with subtotal := s, total := t } transcript now
        = transformToInvoice raw transcript now) := by
  refine ⟨?_, rfl, ?_, ?_, ?_, fun s t => rfl⟩
  · intro it hmem
    unfold transformToInvoice at hmem
    dsimp only at hmem
    simp only [List.mem_map] at hmem
    obtain ⟨p, hp, rfl⟩ := hmem
    exact ⟨zero_le_jsMax _, zero_le_jsMax _, zero_le_jsMax _⟩
  · rw [mul_div_assoc]
    rfl
  · rw [mul_div_assoc]
    rfl
  · rw [mul_div_assoc, mul_div_assoc]
    rfl

/-- C10 witness: the non-negativity clause at a raw item with a negative
unit price and amount, both clamped to zero. -/
theorem c10_recomputed_totals_witness :
    (0 : ℚ) ≤ itemC10w.quantity
    ∧ (0 : ℚ) ≤ itemC10w.unitPrice
    ∧ (0 : ℚ) ≤ itemC10w.amount :=
  (c10_recomputed_totals rawC10 "t" 0).1 itemC10w (by decide)

/-- What `GET_PENDING` actually returns: a permutation of the rows whose
status is exactly `pending`, sorted by `created_at` ascending. -/
theorem getPendingQueueItems_spec (db : DbState) :
    (getPendingQueueItems db).Perm
      (db.queue.filter (fun q => q.status = QueueItemStatus.pending))
    ∧ (getPendingQueueItems db).Sorted byCreatedAt :=
  ⟨List.perm_insertionSort byCreatedAt _, List.sorted_insertionSort byCreatedAt _⟩

end QuickQuote
